import Mathlib

/-!
Verification of the audio-capture pipeline of `openrecall`
(`openrecall/audio_capture.py`), against its natural-language specification.

The Python module is shallowly embedded below:

* `AudioData` is the int16 sample content of one frame (`data` in the code;
  `np.frombuffer(data, dtype=np.int16)` is the identity in this model).
* The Segmenter loop `_process_audio` becomes a step function on an explicit
  state `SegState` (fields `buffer` and `silence_start`, as in the code),
  driven by a list of events: either a frame popped from the queue (with the
  wall-clock time at which it is processed) or a `queue.Empty` timeout.
* The Recorder loop `_record_audio` becomes a fold over per-iteration inputs
  (the outcome of `stream.read` and, when a debug save is attempted, the
  outcome of the `wave` write), in `Except` because a non-`OSError` exception
  escapes the loop.
* The Transcriber `_transcribe_audio` becomes a function from the segment
  texts returned by the model (and an embedding function that may fail) to
  the list of persisted entries, again tracking the exception that aborts
  the per-segment loop.
* The controller `AudioProcessor.start_recording` / `stop_recording` becomes
  a pair of functions on an `AudioProcessor` record that counts the worker
  pairs ever spawned and records whether the thread attributes exist
  (accessing them before any `start_recording` raises `AttributeError`).

Wall-clock times are rationals (seconds), matching `time.time()` arithmetic.
-/

instance {ε α : Type} [DecidableEq ε] [DecidableEq α] :
    DecidableEq (Except ε α) := fun x y =>
  match x, y with
  | .ok a, .ok b => if h : a = b then .isTrue (by rw [h]) else .isFalse (by simp [h])
  | .error a, .error b =>
    if h : a = b then .isTrue (by rw [h]) else .isFalse (by simp [h])
  | .ok _, .error _ => .isFalse (by simp)
  | .error _, .ok _ => .isFalse (by simp)

/-- `CHUNK = 1024` — frames per buffer of one `stream.read`. -/
def CHUNK : ℕ := 1024

/-- `RATE = 16000` — sample rate. -/
def RATE : ℕ := 16000

/-- `SILENCE_THRESHOLD = 300` — mean-absolute-amplitude threshold on int16 data. -/
def SILENCE_THRESHOLD : ℤ := 300

/-- `MIN_SILENCE_LENGTH = 0.5` seconds. -/
def MIN_SILENCE_LENGTH : ℚ := 1/2

/-- The int16 samples of one frame (`np.frombuffer(data, dtype=np.int16)`). -/
abbrev AudioData := List ℤ

/-- Sum of absolute sample values, the numerator of `np.abs(np_data).mean()`. -/
def sumAbs (xs : AudioData) : ℤ := (xs.map (fun x => |x|)).sum

/-- `np.abs(np_data).mean() < SILENCE_THRESHOLD`: the mean of `n` absolute
samples is below 300 iff their sum is below `300 * n`.  (For an empty frame
numpy's mean is NaN and the comparison is false, matching `0 < 300 * 0`.) -/
def isQuiet (d : AudioData) : Bool := sumAbs d < SILENCE_THRESHOLD * d.length

/-- The mutable local state of the `_process_audio` loop: the `buffer` list of
frames and the `silence_start` timestamp (`None` encoded as `none`). -/
structure SegState where
  buffer : List AudioData
  silence_start : Option ℚ
deriving Repr, DecidableEq

/-- Initial Segmenter state: `buffer = []`, `silence_start = None`. -/
def initSegState : SegState := { buffer := [], silence_start := none }

/-- One event observed by the `_process_audio` loop: either a frame obtained
from `audio_queue.get` (tagged with the `time.time()` at which it is
processed) or a `queue.Empty` timeout after 1 second with no data. -/
inductive SegEvent where
  | frame (t : ℚ) (data : AudioData)
  | timeout
deriving Repr, DecidableEq

/-- The body of `_process_audio` for one dequeued frame: append the frame to
the buffer; if quiet, start the silence timer if not already running; if loud
while the timer runs, flush the (already appended-to) buffer when the elapsed
silence reaches `MIN_SILENCE_LENGTH`, and clear the timer either way.
Returns the new state and the list of buffers flushed (`[]` or one). -/
def stepFrame (s : SegState) (t : ℚ) (data : AudioData) :
    SegState × List (List AudioData) :=
  let buffer := s.buffer ++ [data]
  if isQuiet data then
    match s.silence_start with
    | none => ({ buffer := buffer, silence_start := some t }, [])
    | some t0 => ({ buffer := buffer, silence_start := some t0 }, [])
  else
    match s.silence_start with
    | none => ({ buffer := buffer, silence_start := none }, [])
    | some t0 =>
      if MIN_SILENCE_LENGTH ≤ t - t0 then
        ({ buffer := [], silence_start := none }, [buffer])
      else
        ({ buffer := buffer, silence_start := none }, [])

/-- The `except queue.Empty` branch of `_process_audio`: if the buffer is
non-empty, flush it; `silence_start` is left untouched on this path. -/
def stepTimeout (s : SegState) : SegState × List (List AudioData) :=
  if s.buffer.isEmpty then (s, [])
  else ({ buffer := [], silence_start := s.silence_start }, [s.buffer])

/-- One iteration of the `_process_audio` while-loop. -/
def stepEvent (s : SegState) : SegEvent → SegState × List (List AudioData)
  | .frame t d => stepFrame s t d
  | .timeout => stepTimeout s

/-- Run the `_process_audio` loop over a list of events, collecting every
buffer handed to `_transcribe_audio` in order. -/
def runEvents (s : SegState) : List SegEvent → SegState × List (List AudioData)
  | [] => (s, [])
  | e :: es =>
    let p := stepEvent s e
    let q := runEvents p.1 es
    (q.1, p.2 ++ q.2)

/-- The trailing `if buffer:` flush after the while-loop exits. -/
def drainFlush (s : SegState) : List (List AudioData) :=
  if s.buffer.isEmpty then [] else [s.buffer]

/-- A complete run of `_process_audio`: the events observed while
`is_recording or not audio_queue.empty()` held, followed by the terminal
flush of any remaining buffer. Result: all flushed buffers, in order. -/
def processAudio (events : List SegEvent) : List (List AudioData) :=
  (runEvents initSegState events).2 ++ drainFlush (runEvents initSegState events).1

/-- The state of an `AudioProcessor` instance relevant to the control surface:
the `is_recording` flag, the thread attributes (`none` while the attribute has
never been assigned, i.e. before the first `start_recording`), and the number
of worker-thread pairs created so far (each `start_recording` constructs and
starts a fresh `record_thread`/`process_thread` pair, rebinding the
attributes; previously started threads are not stopped or joined by it). -/
structure AudioProcessor where
  is_recording : Bool
  record_thread : Option ℕ
  process_thread : Option ℕ
  spawned : ℕ
deriving Repr, DecidableEq

/-- `AudioProcessor.__init__`: `is_recording = False`, no thread attributes yet. -/
def initProcessor : AudioProcessor :=
  { is_recording := false, record_thread := none, process_thread := none,
    spawned := 0 }

/-- `start_recording`: unconditionally set `is_recording`, construct a new
`record_thread`/`process_thread` pair and start both.  There is no
already-running guard in the code. -/
def start_recording (a : AudioProcessor) : AudioProcessor :=
  { is_recording := true,
    record_thread := some a.spawned,
    process_thread := some a.spawned,
    spawned := a.spawned + 1 }

/-- `stop_recording`: set `is_recording = False`, then `join` each thread if
alive.  Reading `self.record_thread` before any `start_recording` raises
`AttributeError`; the result pairs the processor state as mutated up to the
point of return/raise with the exception, if any (joining a thread leaves the
processor state unchanged). -/
def stop_recording (a : AudioProcessor) : AudioProcessor × Option String :=
  let a1 := { a with is_recording := false }
  match a1.record_thread with
  | none => (a1, some "AttributeError")
  | some _ => (a1, none)

/-- Outcome of one `stream.read(CHUNK, exception_on_overflow=False)`:
a frame, or an `OSError`. -/
inductive ReadOutcome where
  | ok (data : AudioData)
  | oserr
deriving Repr, DecidableEq

/-- Outcome of the `wave` write inside `_save_debug_audio`, when a save is
attempted: success, an `OSError` (caught by the loop's `except OSError`
handler), or any other exception (caught by nothing in `_record_audio`). -/
inductive SaveOutcome where
  | ok
  | osErr
  | otherErr
deriving Repr, DecidableEq

/-- `len(debug_frames) >= (RATE // CHUNK) * 10` — the accumulator size that
triggers a debug save (`16000 / 1024 * 10 = 150` with floor division). -/
def DEBUG_SAVE_FRAMES : ℕ := (RATE / CHUNK) * 10

/-- The mutable state of the `_record_audio` loop: frames pushed onto
`audio_queue`, the local `debug_frames` accumulator, and the instance's
`debug_counter`. -/
structure RecState where
  queued : List AudioData
  debug_frames : List AudioData
  debug_counter : ℕ
deriving Repr, DecidableEq

/-- Recorder state at loop entry. -/
def initRecState : RecState :=
  { queued := [], debug_frames := [], debug_counter := 0 }

/-- One iteration of the `_record_audio` while-loop.  On a read `OSError`:
log and sleep, state unchanged.  On a frame: push it to the queue, append it
to `debug_frames`; when the accumulator reaches `DEBUG_SAVE_FRAMES`, call
`_save_debug_audio` (which increments `debug_counter` before writing); only
on a *successful* save is `debug_frames` reset to `[]`.  A save `OSError` is
caught by the iteration's `except OSError` (logged, brief sleep) with the
accumulator left as is; any other exception propagates and kills the loop. -/
def recordStep (s : RecState) : ReadOutcome × SaveOutcome →
    Except String RecState
  | (.oserr, _) => .ok s
  | (.ok d, sv) =>
    let s1 : RecState :=
      { s with queued := s.queued ++ [d], debug_frames := s.debug_frames ++ [d] }
    if DEBUG_SAVE_FRAMES ≤ s1.debug_frames.length then
      match sv with
      | .ok => .ok { s1 with debug_counter := s1.debug_counter + 1,
                             debug_frames := [] }
      | .osErr => .ok { s1 with debug_counter := s1.debug_counter + 1 }
      | .otherErr => .error "unhandled exception in _record_audio"
    else
      .ok s1

/-- The `_record_audio` while-loop over the iterations that occur while
`is_recording` holds. -/
def recordLoop (s : RecState) :
    List (ReadOutcome × SaveOutcome) → Except String RecState
  | [] => .ok s
  | i :: is => do recordLoop (← recordStep s i) is

/-- All of `_record_audio`: `self.p.open(...)` first — if the device cannot
be opened the exception escapes the function (killing the recorder thread;
nothing in `start_recording` observes it) — then the read loop. -/
def recordAudio (openOk : Bool) (iters : List (ReadOutcome × SaveOutcome)) :
    Except String RecState :=
  if openOk then recordLoop initRecState iters
  else .error "DeviceError: could not open audio device"

/-- A persisted record, as built by the `insert_entry(...)` call in
`_transcribe_audio`.  The embedding type is abstract. -/
structure Entry (E : Type) where
  text : String
  timestamp : ℤ
  embedding : E
  sourceTag : String
  label : String
deriving Repr, DecidableEq

/-- The ASCII whitespace characters removed by Python's `str.strip()`. -/
def pyIsSpace (c : Char) : Bool :=
  c = ' ' || c = '\t' || c = '\n' || c = '\r' || c = '\x0b' || c = '\x0c'

/-- Python's `segment.text.strip()`: remove leading and trailing whitespace. -/
def pyStrip (s : String) : String :=
  ⟨((s.data.dropWhile pyIsSpace).reverse.dropWhile pyIsSpace).reverse⟩

/-- The `for segment in segments:` loop of `_transcribe_audio`: strip each
segment's text, skip it when empty, otherwise compute its embedding and
insert one entry with source tag `"AudioTranscription"`.  The loop runs
inside one `try:`, so the first exception (modelled here as an embedding
failure) aborts the remaining segments; the result is the list of entries
persisted before any failure, paired with the exception, if any, that the
`except` clause catches and logs. -/
def processSegments {E : Type} (embed : String → Except String E) (ts : ℤ) :
    List String → List (Entry E) × Option String
  | [] => ([], none)
  | seg :: rest =>
    let text := pyStrip seg
    if text = "" then processSegments embed ts rest
    else
      match embed text with
      | .error e => ([], some e)
      | .ok emb =>
        let entry : Entry E :=
          { text := text, timestamp := ts, embedding := emb,
            sourceTag := "AudioTranscription",
            label := "Transcription at " ++ toString ts }
        let p := processSegments embed ts rest
        (entry :: p.1, p.2)

/-- `_transcribe_audio` at the level the claims need: the model call either
fails (exception caught, no entries) or returns segment texts, which are then
processed by the per-segment loop.  The temp-file handling does not affect
the persisted entries. -/
def transcribeAudio {E : Type} (modelResult : Except String (List String))
    (embed : String → Except String E) (ts : ℤ) :
    List (Entry E) × Option String :=
  match modelResult with
  | .error e => ([], some e)
  | .ok segs => processSegments embed ts segs

/-- Frame events from a list of (processing time, data) pairs. -/
def eventsOf (l : List (ℚ × AudioData)) : List SegEvent :=
  l.map (fun p => SegEvent.frame p.1 p.2)

/-- The data components of a list of timed frames. -/
def dataOf (l : List (ℚ × AudioData)) : List AudioData := l.map Prod.snd

/-- The frame contents of an event list, in order (timeouts carry none). -/
def frameData : List SegEvent → List AudioData
  | [] => []
  | .frame _ d :: es => d :: frameData es
  | .timeout :: es => frameData es

theorem eventsOf_cons (p : ℚ × AudioData) (l : List (ℚ × AudioData)) :
    eventsOf (p :: l) = SegEvent.frame p.1 p.2 :: eventsOf l := rfl

theorem dataOf_cons (p : ℚ × AudioData) (l : List (ℚ × AudioData)) :
    dataOf (p :: l) = p.2 :: dataOf l := rfl

theorem runEvents_cons (s : SegState) (e : SegEvent) (es : List SegEvent) :
    runEvents s (e :: es) =
      ((runEvents (stepEvent s e).1 es).1,
        (stepEvent s e).2 ++ (runEvents (stepEvent s e).1 es).2) := rfl

theorem stepFrame_quiet (s : SegState) (t : ℚ) (d : AudioData)
    (h : isQuiet d = true) :
    stepFrame s t d =
      ({ buffer := s.buffer ++ [d],
         silence_start := some (s.silence_start.getD t) }, []) := by
  cases hs : s.silence_start <;> simp [stepFrame, h, hs]

theorem stepFrame_loud_none (s : SegState) (t : ℚ) (d : AudioData)
    (h : isQuiet d = false) (hs : s.silence_start = none) :
    stepFrame s t d =
      ({ buffer := s.buffer ++ [d], silence_start := none }, []) := by
  simp [stepFrame, h, hs]

theorem stepFrame_flush (s : SegState) (t t0 : ℚ) (d : AudioData)
    (h : isQuiet d = false) (hs : s.silence_start = some t0)
    (ht : MIN_SILENCE_LENGTH ≤ t - t0) :
    stepFrame s t d =
      ({ buffer := [], silence_start := none }, [s.buffer ++ [d]]) := by
  simp [stepFrame, h, hs, ht]

theorem runEvents_append (s : SegState) (xs ys : List SegEvent) :
    runEvents s (xs ++ ys) =
      ((runEvents (runEvents s xs).1 ys).1,
        (runEvents s xs).2 ++ (runEvents (runEvents s xs).1 ys).2) := by
  induction xs generalizing s with
  | nil => simp [runEvents]
  | cons e es ih => simp [runEvents_cons, ih, List.append_assoc]

theorem eventsOf_append (xs ys : List (ℚ × AudioData)) :
    eventsOf (xs ++ ys) = eventsOf xs ++ eventsOf ys := List.map_append _ _ _

theorem runEvents_loud :
    ∀ (l : List (ℚ × AudioData)), (∀ p ∈ l, isQuiet p.2 = false) →
    ∀ (b : List AudioData),
    runEvents { buffer := b, silence_start := none } (eventsOf l) =
      ({ buffer := b ++ dataOf l, silence_start := none }, []) := by
  intro l
  induction l with
  | nil => intro _ b; simp [runEvents, eventsOf, dataOf]
  | cons p ps ih =>
    intro h b
    have h1 : isQuiet p.2 = false := h p (List.mem_cons_self _ _)
    have h2 : ∀ q ∈ ps, isQuiet q.2 = false := fun q hq =>
      h q (List.mem_cons_of_mem _ hq)
    simp only [eventsOf_cons, runEvents_cons, stepEvent,
      stepFrame_loud_none { buffer := b, silence_start := none } p.1 p.2 h1 rfl,
      ih h2, dataOf_cons]
    simp

theorem runEvents_quiet_some (t0 : ℚ) :
    ∀ (l : List (ℚ × AudioData)), (∀ p ∈ l, isQuiet p.2 = true) →
    ∀ (b : List AudioData),
    runEvents { buffer := b, silence_start := some t0 } (eventsOf l) =
      ({ buffer := b ++ dataOf l, silence_start := some t0 }, []) := by
  intro l
  induction l with
  | nil => intro _ b; simp [runEvents, eventsOf, dataOf]
  | cons p ps ih =>
    intro h b
    have h1 : isQuiet p.2 = true := h p (List.mem_cons_self _ _)
    have h2 : ∀ q ∈ ps, isQuiet q.2 = true := fun q hq =>
      h q (List.mem_cons_of_mem _ hq)
    simp only [eventsOf_cons, runEvents_cons, stepEvent,
      stepFrame_quiet { buffer := b, silence_start := some t0 } p.1 p.2 h1,
      Option.getD_some, ih h2, dataOf_cons]
    simp

theorem runEvents_quiet_none (t0 : ℚ) (q0 : AudioData)
    (qs : List (ℚ × AudioData))
    (h : ∀ p ∈ (t0, q0) :: qs, isQuiet p.2 = true) (b : List AudioData) :
    runEvents { buffer := b, silence_start := none }
        (eventsOf ((t0, q0) :: qs)) =
      ({ buffer := b ++ q0 :: dataOf qs, silence_start := some t0 }, []) := by
  have h1 : isQuiet q0 = true := h (t0, q0) (List.mem_cons_self _ _)
  have h2 : ∀ p ∈ qs, isQuiet p.2 = true := fun p hp =>
    h p (List.mem_cons_of_mem _ hp)
  simp only [eventsOf_cons, runEvents_cons, stepEvent,
    stepFrame_quiet { buffer := b, silence_start := none } t0 q0 h1,
    Option.getD_none, runEvents_quiet_some t0 qs h2]
  simp

theorem runEvents_loud_after_silence (t2 : ℚ) (f2 : AudioData)
    (l2 : List (ℚ × AudioData)) (t0 : ℚ)
    (h : ∀ p ∈ (t2, f2) :: l2, isQuiet p.2 = false)
    (ht : MIN_SILENCE_LENGTH ≤ t2 - t0) (b : List AudioData) :
    runEvents { buffer := b, silence_start := some t0 }
        (eventsOf ((t2, f2) :: l2)) =
      ({ buffer := dataOf l2, silence_start := none }, [b ++ [f2]]) := by
  have h1 : isQuiet f2 = false := h (t2, f2) (List.mem_cons_self _ _)
  have h2 : ∀ p ∈ l2, isQuiet p.2 = false := fun p hp =>
    h p (List.mem_cons_of_mem _ hp)
  simp only [eventsOf_cons, runEvents_cons, stepEvent,
    stepFrame_flush { buffer := b, silence_start := some t0 } t2 t0 f2 h1 rfl ht,
    runEvents_loud l2 h2]
  simp

theorem stepFrame_no_flush (s : SegState) (t : ℚ) (d : AudioData)
    (h : (stepFrame s t d).2 = []) :
    (stepFrame s t d).1.buffer = s.buffer ++ [d] := by
  by_cases hq : isQuiet d
  · simp [stepFrame_quiet s t d hq]
  · cases hs : s.silence_start with
    | none => simp [stepFrame_loud_none s t d (by simpa using hq) hs]
    | some t0 =>
      by_cases ht : MIN_SILENCE_LENGTH ≤ t - t0
      · rw [stepFrame_flush s t t0 d (by simpa using hq) hs ht] at h
        simp at h
      · simp [stepFrame, hs, ht, hq]

theorem stepTimeout_no_flush (s : SegState) (h : (stepTimeout s).2 = []) :
    (stepTimeout s).1 = s ∧ s.buffer = [] := by
  by_cases hb : s.buffer.isEmpty
  · exact ⟨by simp [stepTimeout, hb], by simpa using hb⟩
  · rw [stepTimeout] at h
    simp [hb] at h

theorem runEvents_no_flush_buffer (es : List SegEvent) (s : SegState)
    (h : (runEvents s es).2 = []) :
    (runEvents s es).1.buffer = s.buffer ++ frameData es := by
  induction es generalizing s with
  | nil => simp [runEvents, frameData]
  | cons e es ih =>
    rw [runEvents_cons] at h ⊢
    simp only [List.append_eq_nil] at h
    obtain ⟨h1, h2⟩ := h
    cases e with
    | frame t d =>
      have hb := stepFrame_no_flush s t d h1
      simp only [stepEvent] at h2 ⊢
      rw [ih _ h2, hb, frameData, List.append_assoc]
      rfl
    | timeout =>
      obtain ⟨hb, _⟩ := stepTimeout_no_flush s h1
      simp only [stepEvent] at h2 ⊢
      rw [ih _ h2, hb, frameData]

/-- C1 counterexample: with a one-frame loud run at t=0, one quiet frame at
t=1 and a second loud run starting at t=2 (elapsed silence 1 ≥ 0.5), the run
produces exactly one flushed buffer, and that buffer contains the frame
`[2000]` of the *second* loud run — the second run's first frame is appended
to the buffer before the boundary flush, so it is not excluded from the
first run's buffer as the claim requires. -/
theorem C1_counterexample :
    isQuiet [1000] = false ∧ isQuiet [0] = true ∧ isQuiet [2000] = false ∧
    MIN_SILENCE_LENGTH ≤ (2 : ℚ) - 1 ∧
    processAudio [.frame 0 [1000], .frame 1 [0], .frame 2 [2000]] =
      [[[1000], [0], [2000]]] := by
  refine ⟨by decide, by decide, by decide, by norm_num [MIN_SILENCE_LENGTH], ?_⟩
  norm_num [processAudio, runEvents, stepEvent, stepFrame, stepTimeout, isQuiet,
    sumAbs, initSegState, drainFlush, MIN_SILENCE_LENGTH, SILENCE_THRESHOLD]

/-- C1 (amended): for a loud run, then quiet frames spanning at least the
minimum-silence-duration, then a second loud run, the Segmenter flushes
exactly once, at the boundary — upon the first frame of the second loud run —
and the flushed buffer consists of the first loud run, the quiet frames, and
the *first frame of the second loud run*; only the remaining frames of the
second run are left for the next buffer. -/
theorem C1_amended_boundary_flush (l1 qs l2 : List (ℚ × AudioData))
    (t0 t2 : ℚ) (q0 f2 : AudioData)
    (h1 : ∀ p ∈ l1, isQuiet p.2 = false)
    (hq : ∀ p ∈ (t0, q0) :: qs, isQuiet p.2 = true)
    (h2 : ∀ p ∈ (t2, f2) :: l2, isQuiet p.2 = false)
    (ht : MIN_SILENCE_LENGTH ≤ t2 - t0) :
    runEvents initSegState
        (eventsOf (l1 ++ ((t0, q0) :: qs) ++ ((t2, f2) :: l2))) =
      ({ buffer := dataOf l2, silence_start := none },
        [(dataOf l1 ++ q0 :: dataOf qs) ++ [f2]]) := by
  simp only [eventsOf_append, runEvents_append,
    show initSegState = { buffer := [], silence_start := none } from rfl,
    runEvents_loud l1 h1, runEvents_quiet_none t0 q0 qs hq,
    runEvents_loud_after_silence t2 f2 l2 t0 h2 ht, List.nil_append]

/-- C1 witness: the amended theorem applied to the concrete run
loud `[1000]` at t=0, quiet `[0]` at t=1, loud `[2000]` at t=2 and `[1500]`
at t=3: one flush `[[1000], [0], [2000]]`, with `[1500]` left buffered. -/
theorem C1_witness :
    (∀ p ∈ [((0 : ℚ), ([1000] : AudioData))], isQuiet p.2 = false) ∧
    (∀ p ∈ [((1 : ℚ), ([0] : AudioData))], isQuiet p.2 = true) ∧
    (∀ p ∈ [((2 : ℚ), ([2000] : AudioData)), ((3 : ℚ), ([1500] : AudioData))],
      isQuiet p.2 = false) ∧
    MIN_SILENCE_LENGTH ≤ (2 : ℚ) - 1 ∧
    runEvents initSegState
        (eventsOf ([(0, [1000])] ++ ([((1 : ℚ), ([0] : AudioData))] ) ++
          [(2, [2000]), (3, [1500])])) =
      ({ buffer := dataOf [((3 : ℚ), ([1500] : AudioData))],
         silence_start := none },
        [(dataOf [((0 : ℚ), ([1000] : AudioData))] ++
            [0] :: dataOf ([] : List (ℚ × AudioData))) ++ [[2000]]]) :=
  ⟨by decide, by decide, by decide, by norm_num [MIN_SILENCE_LENGTH],
    C1_amended_boundary_flush [(0, [1000])] [] [(3, [1500])] 1 2 [0] [2000]
      (by decide) (by decide) (by decide)
      (by norm_num [MIN_SILENCE_LENGTH])⟩

/-- C2 counterexample: loud `[1000]` at t=0 then quiet `[0]` at t=1 leaves
the silence timer at 1; processing a further quiet frame at t=2 — elapsed
silence 1 ≥ 0.5 — produces no flush (the quiet branch of the loop never
flushes), and the buffer stays non-empty, contradicting the claimed
immediate flush-and-reset upon that quiet frame. -/
theorem C2_counterexample :
    isQuiet [0] = true ∧
    (runEvents initSegState
        [.frame 0 [1000], .frame 1 [0]]).1.silence_start = some 1 ∧
    MIN_SILENCE_LENGTH ≤ (2 : ℚ) - 1 ∧
    (stepFrame (runEvents initSegState
        [.frame 0 [1000], .frame 1 [0]]).1 2 [0]).2 = [] ∧
    (stepFrame (runEvents initSegState
        [.frame 0 [1000], .frame 1 [0]]).1 2 [0]).1.buffer ≠ [] := by
  refine ⟨by decide, ?_, by norm_num [MIN_SILENCE_LENGTH], ?_, ?_⟩
  · norm_num [runEvents, stepEvent, stepFrame, isQuiet, sumAbs, initSegState,
      SILENCE_THRESHOLD, MIN_SILENCE_LENGTH]
  · norm_num [runEvents, stepEvent, stepFrame, isQuiet, sumAbs, initSegState,
      SILENCE_THRESHOLD, MIN_SILENCE_LENGTH]
  · norm_num [runEvents, stepEvent, stepFrame, isQuiet, sumAbs, initSegState,
      SILENCE_THRESHOLD, MIN_SILENCE_LENGTH]
    decide

/-- C2 (amended): a quiet frame never triggers a flush, regardless of how
long the silence timer has been running: the frame is merely appended to the
buffer; the flush for a completed silence period happens only when a later
loud frame arrives (or via the idle-timeout / shutdown paths). -/
theorem C2_amended_quiet_never_flushes (s : SegState) (t : ℚ) (d : AudioData)
    (h : isQuiet d = true) :
    (stepFrame s t d).2 = [] ∧ (stepFrame s t d).1.buffer = s.buffer ++ [d] := by
  simp [stepFrame_quiet s t d h]

/-- C2 witness: the amended theorem at the quiet frame `[0]` processed at
t=0 from the initial state. -/
theorem C2_witness :
    isQuiet [0] = true ∧
    ((stepFrame initSegState 0 [0]).2 = [] ∧
      (stepFrame initSegState 0 [0]).1.buffer = initSegState.buffer ++ [[0]]) :=
  ⟨by decide, C2_amended_quiet_never_flushes initSegState 0 [0] (by decide)⟩

/-- C3 counterexample: a second `start_recording` without an intervening stop
is not a no-op — it constructs and starts a second pair of worker threads
(the count of spawned pairs goes from 1 to 2) and rebinds the thread
attributes, so the pipeline state changes. -/
theorem C3_counterexample :
    start_recording (start_recording initProcessor) ≠
        start_recording initProcessor ∧
    (start_recording (start_recording initProcessor)).spawned = 2 ∧
    (start_recording initProcessor).spawned = 1 := by decide

/-- C3 (amended): `stop_recording` is idempotent once `start_recording` has
run at least once (a second stop returns the same state and no error), but
`start_recording` is not idempotent: every call spawns a fresh pair of
worker threads, whether or not the pipeline is already running. -/
theorem C3_amended_stop_idempotent_start_not (a : AudioProcessor)
    (h : a.record_thread.isSome = true) :
    stop_recording (stop_recording a).1 = ((stop_recording a).1, none) ∧
    (start_recording a).spawned = a.spawned + 1 := by
  obtain ⟨x, hx⟩ := Option.isSome_iff_exists.mp h
  exact ⟨by simp [stop_recording, hx], rfl⟩

/-- C3 witness: the amended theorem applied right after one
`start_recording` from the initial processor state. -/
theorem C3_witness :
    (start_recording initProcessor).record_thread.isSome = true ∧
    (stop_recording (stop_recording (start_recording initProcessor)).1 =
        ((stop_recording (start_recording initProcessor)).1, none) ∧
      (start_recording (start_recording initProcessor)).spawned =
        (start_recording initProcessor).spawned + 1) :=
  ⟨by decide, C3_amended_stop_idempotent_start_not
    (start_recording initProcessor) (by decide)⟩

/-- C4 counterexample: `stop_recording` called before any successful
`start_recording` does not succeed — reading `self.record_thread` raises
`AttributeError`. -/
theorem C4_counterexample :
    (stop_recording initProcessor).2 = some "AttributeError" := by decide

/-- C4 (amended): `stop_recording` succeeds iff the thread attributes exist,
i.e. iff `start_recording` has run at least once on this processor (before
that it raises `AttributeError`); and `start_recording` itself never signals
an error to its caller — even when the device cannot be opened (that failure
occurs later, on the recorder thread) — and always leaves the pipeline
marked active. -/
theorem C4_amended_stop_requires_start (a : AudioProcessor) :
    ((stop_recording a).2 = none ↔ a.record_thread.isSome = true) ∧
    (start_recording a).is_recording = true := by
  cases hx : a.record_thread <;> simp [stop_recording, hx, start_recording]

/-- C5 counterexample: a quiet frame at t=0 followed by an idle timeout
flushes the one-frame buffer but leaves `silence_start = 0` (the timeout
path does not reset it); the next loud frame at t=1 therefore observes the
carried-over timer (1 − 0 ≥ 0.5) and immediately flushes the freshly
restarted buffer `[[1000]]`. -/
theorem C5_counterexample :
    (runEvents initSegState [.frame 0 [0], .timeout]).2 = [[[0]]] ∧
    (runEvents initSegState [.frame 0 [0], .timeout]).1 =
      { buffer := [], silence_start := some 0 } ∧
    (runEvents initSegState [.frame 0 [0], .timeout, .frame 1 [1000]]).2 =
      [[[0]], [[1000]]] := by
  refine ⟨?_, ?_, ?_⟩ <;>
    norm_num [runEvents, stepEvent, stepFrame, stepTimeout, isQuiet, sumAbs,
      initSegState, SILENCE_THRESHOLD, MIN_SILENCE_LENGTH]

/-- C5 (amended): `silence_start` is reset to `None` whenever a loud frame is
processed — in particular on the loud-frame flush path — but the idle-timeout
flush leaves `silence_start` unchanged, so a buffer restarted after an
idle-timeout flush can observe a silence timer carried over from before that
flush. -/
theorem C5_amended_reset_only_on_loud_path (s : SegState) (t : ℚ)
    (d : AudioData) (h : isQuiet d = false) :
    (stepFrame s t d).1.silence_start = none ∧
    (stepTimeout s).1.silence_start = s.silence_start := by
  constructor
  · cases hs : s.silence_start with
    | none => simp [stepFrame_loud_none s t d h hs]
    | some t0 =>
      by_cases ht : MIN_SILENCE_LENGTH ≤ t - t0
      · simp [stepFrame_flush s t t0 d h hs ht]
      · simp [stepFrame, h, hs, ht]
  · by_cases hb : s.buffer.isEmpty <;> simp [stepTimeout, hb]

/-- C5 witness: the amended theorem at the loud frame `[1000]` processed at
t=1 from a state holding one quiet frame and a running silence timer. -/
theorem C5_witness :
    isQuiet [1000] = false ∧
    ((stepFrame { buffer := [[0]], silence_start := some 0 }
        1 [1000]).1.silence_start = none ∧
      (stepTimeout { buffer := [[0]], silence_start := some 0 }).1.silence_start
        = ({ buffer := [[0]], silence_start := some 0 } : SegState).silence_start) :=
  ⟨by decide, C5_amended_reset_only_on_loud_path
    { buffer := [[0]], silence_start := some 0 } 1 [1000] (by decide)⟩

/-- Helper: when every needed embedding succeeds, the per-segment loop
persists one entry per segment with non-empty stripped text, in order. -/
theorem processSegments_all_ok {E : Type} (embed : String → Except String E)
    (ts : ℤ) :
    ∀ (segs : List String),
    (∀ s ∈ segs, pyStrip s ≠ "" → (embed (pyStrip s)).isOk = true) →
    (processSegments embed ts segs).1.map (fun e => (e.text, e.sourceTag))
      = ((segs.map pyStrip).filter (fun t => t ≠ "")).map
        (fun t => (t, "AudioTranscription")) := by
  intro segs
  induction segs with
  | nil => intro _; rfl
  | cons seg rest ih =>
    intro h
    have hrest : ∀ s ∈ rest, pyStrip s ≠ "" → (embed (pyStrip s)).isOk = true :=
      fun s hs => h s (List.mem_cons_of_mem _ hs)
    by_cases he : pyStrip seg = ""
    · simp [processSegments, he, ih hrest]
    · have hok := h seg (List.mem_cons_self _ _) he
      cases hemb : embed (pyStrip seg) with
      | error e => rw [hemb] at hok; simp [Except.isOk, Except.toBool] at hok
      | ok v => simp [processSegments, he, hemb, ih hrest]

/-- C6: in a run where every needed embedding succeeds, the entries persisted
for a buffer's transcript segments are exactly one per segment whose stripped
text is non-empty, in order, each carrying that stripped text and source tag
`"AudioTranscription"`; stripped-empty segments persist nothing. -/
theorem C6_segment_persistence {E : Type} (embed : String → Except String E)
    (ts : ℤ) (segs : List String)
    (h : ∀ s ∈ segs, pyStrip s ≠ "" → (embed (pyStrip s)).isOk = true) :
    (transcribeAudio (.ok segs) embed ts).1.map (fun e => (e.text, e.sourceTag))
      = ((segs.map pyStrip).filter (fun t => t ≠ "")).map
        (fun t => (t, "AudioTranscription")) :=
  processSegments_all_ok embed ts segs h

/-- Embedding collaborator for the C6 witness: always succeeds. -/
def embedConst : String → Except String ℕ := fun _ => Except.ok 7

/-- C6 witness: the theorem at the two concrete segments
`"  hello there  "` and `"   "`: exactly one entry, text `"hello there"`,
source tag `"AudioTranscription"`. -/
theorem C6_witness :
    (∀ s ∈ ["  hello there  ", "   "],
      pyStrip s ≠ "" → (embedConst (pyStrip s)).isOk = true) ∧
    (transcribeAudio (.ok ["  hello there  ", "   "]) embedConst 5).1.map
        (fun e => (e.text, e.sourceTag))
      = ((["  hello there  ", "   "].map pyStrip).filter
          (fun t => t ≠ "")).map (fun t => (t, "AudioTranscription")) :=
  ⟨by decide, C6_segment_persistence embedConst 5 _ (by decide)⟩

/-- Embedding collaborator for C7: fails on `"a"`, succeeds elsewhere. -/
def embedFailA : String → Except String ℕ :=
  fun t => if t = "a" then .error "embedding failure" else .ok 0

/-- C7 counterexample: for the buffer whose transcription yields the two
non-empty segments `"a"` and `"b"`, an embedding failure on `"a"` leaves NO
persisted entries at all — the remaining segment `"b"`, whose embedding would
succeed, is not embedded or persisted, because the `except` handler wraps
the whole per-segment loop. -/
theorem C7_counterexample :
    (embedFailA (pyStrip "b")).isOk = true ∧ pyStrip "b" ≠ "" ∧
    transcribeAudio (.ok ["a", "b"]) embedFailA 0 =
      ([], some "embedding failure") := by
  refine ⟨by decide, by decide, by decide⟩

/-- C7 (amended): an embedding failure is recoverable per-buffer, not
per-segment: the exception is caught (and logged) outside the segment loop,
so the failing segment's entry is not persisted and all remaining segments
of the same buffer are skipped as well; only entries from segments processed
before the failure are persisted. -/
theorem C7_amended_failure_aborts_rest {E : Type}
    (embed : String → Except String E) (ts : ℤ) (post : List String)
    (bad : String) (e : String) (hbad : pyStrip bad ≠ "")
    (hfail : embed (pyStrip bad) = .error e) :
    ∀ (pre : List String),
    (∀ s ∈ pre, pyStrip s ≠ "" → (embed (pyStrip s)).isOk = true) →
    processSegments embed ts (pre ++ bad :: post) =
      ((processSegments embed ts pre).1, some e) := by
  intro pre
  induction pre with
  | nil => intro _; simp [processSegments, hbad, hfail]
  | cons s rest ih =>
    intro h
    have hs := h s (List.mem_cons_self _ _)
    have hrest : ∀ x ∈ rest, pyStrip x ≠ "" → (embed (pyStrip x)).isOk = true :=
      fun x hx => h x (List.mem_cons_of_mem _ hx)
    by_cases he : pyStrip s = ""
    · simp [processSegments, he, ih hrest]
    · cases hemb : embed (pyStrip s) with
      | error er =>
        have hok := hs he
        rw [hemb] at hok
        simp [Except.isOk, Except.toBool] at hok
      | ok v => simp [processSegments, he, hemb, ih hrest]

/-- C7 witness: the amended theorem at segments `["x", "a", "b"]` with the
embedding failing on `"a"`: only the entry for `"x"` is persisted and the
error is the one raised for `"a"`. -/
theorem C7_witness :
    pyStrip "a" ≠ "" ∧
    embedFailA (pyStrip "a") = .error "embedding failure" ∧
    (∀ s ∈ ["x"], pyStrip s ≠ "" → (embedFailA (pyStrip s)).isOk = true) ∧
    processSegments embedFailA 0 (["x"] ++ "a" :: ["b"]) =
      ((processSegments embedFailA 0 ["x"]).1, some "embedding failure") :=
  ⟨by decide, by decide, by decide,
    C7_amended_failure_aborts_rest embedFailA 0 ["b"] "a" "embedding failure"
      (by decide) (by decide) ["x"] (by decide)⟩

/-- C8 counterexample: with a device that cannot be opened, `_record_audio`
terminates with the `DeviceError`, yet `start_recording` returns normally to
its caller and the pipeline starts anyway: it is marked active and the
Segmenter worker thread is spawned. -/
theorem C8_counterexample :
    recordAudio false [] = .error "DeviceError: could not open audio device" ∧
    (start_recording initProcessor).is_recording = true ∧
    (start_recording initProcessor).process_thread.isSome = true := by decide

/-- C8 (amended): a device-open failure is fatal only to the Recorder worker:
`_record_audio` raises the `DeviceError` out of its thread for every input,
nothing is propagated to the caller of `start_recording`, and the pipeline
still starts — `is_recording` is set and the Segmenter worker is spawned. -/
theorem C8_amended_open_failure_kills_recorder_only
    (iters : List (ReadOutcome × SaveOutcome)) (a : AudioProcessor) :
    recordAudio false iters =
        .error "DeviceError: could not open audio device" ∧
    (start_recording a).is_recording = true ∧
    (start_recording a).process_thread.isSome = true :=
  ⟨rfl, rfl, rfl⟩

set_option maxRecDepth 20000 in
/-- C9 counterexample: after 150 captured frames (10 seconds' worth,
`(RATE // CHUNK) * 10 = 150`) whose triggered debug save fails with
`OSError`, the loop continues — but the debug accumulator still holds all
150 frames instead of being cleared; and a non-`OSError` save failure is
propagated and terminates the Recorder loop. -/
theorem C9_counterexample :
    DEBUG_SAVE_FRAMES = 150 ∧
    recordLoop initRecState
        (List.replicate 150 (ReadOutcome.ok [], SaveOutcome.osErr)) =
      .ok { queued := List.replicate 150 [],
            debug_frames := List.replicate 150 [], debug_counter := 1 } ∧
    recordLoop initRecState
        (List.replicate 150 (ReadOutcome.ok [], SaveOutcome.otherErr)) =
      .error "unhandled exception in _record_audio" := by
  refine ⟨by decide, by decide, by decide⟩

/-- C9 (amended): an `OSError` while writing a debug snapshot is non-fatal:
it is caught and logged by the loop's handler, the frame was already
delivered to the queue and capture continues — but the debug accumulator is
NOT cleared: it retains all accumulated frames (and `debug_counter` was
already incremented).  A non-`OSError` failure would instead propagate and
terminate the Recorder loop. -/
theorem C9_amended_oserror_nonfatal_accumulator_kept (s : RecState)
    (d : AudioData) (h : DEBUG_SAVE_FRAMES ≤ (s.debug_frames ++ [d]).length) :
    recordStep s (.ok d, .osErr) =
      .ok { queued := s.queued ++ [d], debug_frames := s.debug_frames ++ [d],
            debug_counter := s.debug_counter + 1 } := by
  have h1 : DEBUG_SAVE_FRAMES ≤ s.debug_frames.length + 1 := by simpa using h
  simp [recordStep, h1]

set_option maxRecDepth 20000 in
/-- C9 witness: the amended theorem at an accumulator holding 149 frames,
receiving its 150th frame and failing the triggered save with `OSError`. -/
theorem C9_witness :
    DEBUG_SAVE_FRAMES ≤ (List.replicate 149 ([] : AudioData) ++ [[]]).length ∧
    recordStep { queued := [], debug_frames := List.replicate 149 [],
                 debug_counter := 0 } (.ok [], .osErr) =
      .ok { queued := [] ++ [[]],
            debug_frames := List.replicate 149 ([] : AudioData) ++ [[]],
            debug_counter := 0 + 1 } :=
  ⟨by decide, C9_amended_oserror_nonfatal_accumulator_kept
    { queued := [], debug_frames := List.replicate 149 [], debug_counter := 0 }
    [] (by decide)⟩

/-- C10: on shutdown, once capture is disabled and the queue drained, if no
flush was triggered while the events were processed (no silence gap reached
the minimum-silence-duration and no idle-timeout flush fired), the buffer at
loop exit holds every frame received since the last flush, and the whole run
performs exactly one terminal flush containing exactly those frames — or no
flush at all when no frames remain. -/
theorem C10_terminal_flush (es : List SegEvent)
    (h : (runEvents initSegState es).2 = []) :
    (runEvents initSegState es).1.buffer = frameData es ∧
    processAudio es =
      (if frameData es = [] then [] else [frameData es]) := by
  have hb := runEvents_no_flush_buffer es initSegState h
  rw [show initSegState.buffer = [] from rfl, List.nil_append] at hb
  refine ⟨hb, ?_⟩
  rw [processAudio, h, List.nil_append, drainFlush, hb]
  by_cases hf : frameData es = [] <;> simp [hf]

/-- C10 witness: the theorem at a drain of two loud frames with no silence
gap: a single terminal flush containing both frames. -/
theorem C10_witness :
    (runEvents initSegState [.frame 0 [1000], .frame 1 [1000]]).2 = [] ∧
    ((runEvents initSegState [.frame 0 [1000], .frame 1 [1000]]).1.buffer =
        frameData [.frame 0 [1000], .frame 1 [1000]] ∧
      processAudio [.frame 0 [1000], .frame 1 [1000]] =
        (if frameData [.frame 0 [1000], .frame 1 [1000]] = [] then []
         else [frameData [.frame 0 [1000], .frame 1 [1000]]])) :=
  ⟨by decide, C10_terminal_flush _ (by decide)⟩
